import Mathlib

/-!
Verification of the Blogger auto-posting system.

Shallow embedding of the repository's core logic: the scheduled-post state
machine and poller (`app.py`: `AutoPostingSystem.process_scheduled_posts`,
`AutoPostingSystem.publish_post`, `schedule_bulk_titles`, `process_txt_file`,
`process_csv_file`), the key manager
(`deepseek_python_20251107_97ace3.py`: `APIKeysManager.update_keys`) and the
plagiarism heuristic (`src/plagiarism_checker.py`).

Calendar dates are modelled as natural day numbers (the `.date()` part of a
`datetime`), times of day and timestamps as natural numbers.  Python strings
are Lean `String`s, with the Python primitives `strip` / `split` / `lower` /
`startswith` / `in` re-implemented structurally over the character list
(`py` helpers below) so that every definition evaluates by kernel reduction.
External collaborator services (content generation, image generation,
plagiarism scoring, blog hosting, performance tracking) are an explicit
record of functions; fallible collaborators return `Except String`, the
`String` being the Python exception text `str(e)`.
-/

/-! ## Python string primitives -/

/-- Python `str.strip()`: drop whitespace from both ends. -/
def pyStrip (s : List Char) : List Char :=
  ((s.dropWhile Char.isWhitespace).reverse.dropWhile Char.isWhitespace).reverse

/-- Auxiliary for `pySplit`: accumulate the current field (reversed). -/
def pySplitAux (sep : Char) : List Char → List Char → List (List Char)
  | [], acc => [acc.reverse]
  | c :: cs, acc =>
    if c = sep then acc.reverse :: pySplitAux sep cs []
    else pySplitAux sep cs (c :: acc)

/-- Python `str.split(sep)` for a one-character separator: split on every
occurrence, keeping empty fields. -/
def pySplit (sep : Char) (s : List Char) : List (List Char) := pySplitAux sep s []

/-- Python `str.startswith(pre)`. -/
def pyStartsWith (pre s : List Char) : Bool := pre.isPrefixOf s

/-- Python `pat in s` substring test. -/
def pyContains : List Char → List Char → Bool
  | [], pat => pat.isEmpty
  | c :: cs, pat => pat.isPrefixOf (c :: cs) || pyContains cs pat

/-- Python `str.lower()` (ASCII range, which covers the header keywords the
code compares against). -/
def pyLower (s : List Char) : List Char := s.map Char.toLower

/-- `pyStrip` on a `String`. -/
def pyStripStr (s : String) : String := ⟨pyStrip s.data⟩

/-! ## Data model -/

/-- Lifecycle status of a scheduled post: `status ∈ {scheduled, published, failed}`. -/
inductive PostStatus
  | scheduled
  | published
  | failed
deriving DecidableEq, Repr

/-- A record of `scheduled_posts.json`.  Mirrors the dict fields created in
`app.py` (`handle_posts` POST, `schedule_bulk_titles`) and mutated by
`publish_post` / `process_scheduled_posts`.  `publishDay` is the calendar date
part and `publishTime` the time-of-day part of `publish_date`; optional dict
keys that are only added later are `Option` fields, `none` meaning absent. -/
structure ScheduledPost where
  id : Nat := 0
  title : String := ""
  keywords : List String := []
  publishDay : Nat := 0
  publishTime : Nat := 0
  createdDay : Nat := 0
  postType : Option String := none
  status : PostStatus := .scheduled
  publishedAt : Option Nat := none
  url : Option String := none
  word_count : Option Nat := none
  error : Option String := none
  last_attempt : Option Nat := none
deriving DecidableEq, Repr

/-- Invariant claimed by the spec for every `ScheduledPost`:
`status == published` implies `url` and `published_at` are set, and
`status == failed` implies `error` is set. -/
def postInvariant (p : ScheduledPost) : Prop :=
  (p.status = .published → p.url.isSome ∧ p.publishedAt.isSome) ∧
  (p.status = .failed → p.error.isSome)

instance (p : ScheduledPost) : Decidable (postInvariant p) := by
  unfold postInvariant
  infer_instance

/-! ## TXT ingestion (`app.py`, `process_txt_file`, lines 780-819)

The byte-decoding loop (UTF-8 / Latin-1 / CP1252 fallback) is modelled as the
already decoded `content` string; the claims are about the line processing. -/

/-- Keep condition of the TXT line loop: `if line and not line.startswith('#')`
on the stripped line. -/
def keepTxtLine (line : List Char) : Bool :=
  !line.isEmpty && !pyStartsWith ['#'] line

/-- Line-processing loop of `process_txt_file`: split the decoded content on
newline characters (`content.split('\n')`), strip each line, append the
non-empty ones that do not start with the `#` comment marker, in input
order. -/
def process_txt_file (content : String) : List String :=
  (pySplit '\n' content.data).foldl
    (fun titles rawLine =>
      let line := pyStrip rawLine
      if keepTxtLine line then titles ++ [String.mk line] else titles)
    []

/-- Declarative form of the TXT line filter, used to state the ingestion
claim: the stripped lines that are non-blank and not `#`-prefixed, in input
order. -/
def txtTitlesOf (content : String) : List String :=
  ((((pySplit '\n' content.data).map pyStrip).filter keepTxtLine).map String.mk)

/-! ## Plagiarism heuristic (`src/plagiarism_checker.py`) -/

/-- Sample text used by `simple_content_check`: first three `.`-separated
sentences, re-joined with `". "` and stripped
(`'. '.join(content.split('.')[:3]).strip()`). -/
def sample_text (content : String) : List Char :=
  pyStrip (List.intercalate (". ".data) ((pySplit '.' content.data).take 3))

/-- Embedding of `simple_content_check` (`src/plagiarism_checker.py`,
lines 27-54).  The Google search API key read from the environment is passed
explicitly.  Returns `0.0` for an empty or short (< 50 characters) sample,
`1.0` when no search API key is configured, and the mock score `2.5`
(written `5/2`) otherwise.  The conceptual search call never raises in this
embedding, so the `except` branch returning `1.0` is unreachable. -/
def simple_content_check (googleSearchApiKey : Option String) (content : String) : ℚ :=
  if sample_text content = [] ∨ (sample_text content).length < 50 then 0
  else
    match googleSearchApiKey with
    | none => 1
    | some _ => (5 : ℚ) / 2

/-- Embedding of `check_plagiarism` (`src/plagiarism_checker.py`, lines 8-25):
delegates to `simple_content_check`; its `except` branch returning `0.0` is
unreachable because `simple_content_check` is total. -/
def check_plagiarism (googleSearchApiKey : Option String) (content : String) : ℚ :=
  simple_content_check googleSearchApiKey content

/-! ## API key manager (`deepseek_python_20251107_97ace3.py`, `APIKeysManager`) -/

/-- The `api_keys.json` record: five provider credential strings plus the
derived `is_configured` flag. -/
structure APIKeys where
  openai_api_key : String
  hf_api_key : String
  blogger_blog_id : String
  google_client_id : String
  google_client_secret : String
  is_configured : Bool
deriving DecidableEq, Repr

/-- Default key record created by `APIKeysManager.load_keys` when no file
exists. -/
def defaultAPIKeys : APIKeys :=
  { openai_api_key := ""
    hf_api_key := ""
    blogger_blog_id := ""
    google_client_id := ""
    google_client_secret := ""
    is_configured := false }

/-- One iteration of the `for key, value in new_keys.items()` loop of
`update_keys`: assign `value.strip()` when the key names an existing string
field.  An `is_configured` entry in the payload is irrelevant because
`update_keys` recomputes that flag immediately afterwards. -/
def setKey (ks : APIKeys) (kv : String × String) : APIKeys :=
  if kv.1 = "openai_api_key" then { ks with openai_api_key := pyStripStr kv.2 }
  else if kv.1 = "hf_api_key" then { ks with hf_api_key := pyStripStr kv.2 }
  else if kv.1 = "blogger_blog_id" then { ks with blogger_blog_id := pyStripStr kv.2 }
  else if kv.1 = "google_client_id" then { ks with google_client_id := pyStripStr kv.2 }
  else if kv.1 = "google_client_secret" then { ks with google_client_secret := pyStripStr kv.2 }
  else ks

/-- Embedding of `APIKeysManager.update_keys`
(`deepseek_python_20251107_97ace3.py`, lines 97-116): fold the payload into
the stored record, then recompute `is_configured` as
`any([openai_api_key, hf_api_key, blogger_blog_id])` — Python truthiness of a
string being non-emptiness. -/
def update_keys (ks : APIKeys) (new_keys : List (String × String)) : APIKeys :=
  let ks' := new_keys.foldl setKey ks
  { ks' with
      is_configured :=
        (ks'.openai_api_key != "") || (ks'.hf_api_key != "") || (ks'.blogger_blog_id != "") }

/-! ## Publish pipeline (`app.py`, `AutoPostingSystem.publish_post`, lines 114-167)

The external collaborators called by `publish_post` are modelled as a record
of functions.  `generate_article` and `post_to_blogger` may raise
(`Except.error` carrying `str(e)`); `create_image` catches every error and
returns `None` instead (`app.py` treats a missing image as non-fatal);
`check_plagiarism` is total (see `src/plagiarism_checker.py`);
`track_performance` is given the general `Except` type so that both a raising
and a non-raising tracker can be analysed. -/

/-- Article payload returned by the content-generation collaborator
(`generate_article`). -/
structure ArticleData where
  content : String := ""
  meta_description : String := ""
  keywords : List String := []
  word_count : Nat := 0
deriving DecidableEq, Repr

/-- External collaborator services invoked by the publish pipeline. -/
structure Collaborators where
  generate_article : String → List String → Except String ArticleData
  create_image : String → Option String
  check_plagiarism : String → ℚ
  post_to_blogger : String → String → String → Option String → List String → Except String String
  track_performance : String → String → Except String Unit

/-- The `content_settings` toggles of `PostingConfig` consulted by
`publish_post`. -/
structure ContentSettings where
  auto_generate_images : Bool := true
  plagiarism_check : Bool := true
deriving DecidableEq, Repr

/-- Embedding of the fallback `generate_image_prompt`
(`deepseek_python_20251107_97ace3.py`, lines 168-169). -/
def generate_image_prompt (title : String) : String :=
  "Professional digital art illustration about " ++ title ++
    ", cryptocurrency blockchain technology, futuristic style, blue orange color scheme, landscape 16:9, high quality, trending on artstation"

/-- Message of the exception raised when the plagiarism score exceeds the
threshold: `f"Plagiarism score too high: {plagiarism_score}%"`. -/
def plagiarism_error (score : ℚ) : String :=
  "Plagiarism score too high: " ++ toString score ++ "%"

/-- Embedding of `AutoPostingSystem.publish_post` (`app.py`, lines 114-167).
Returns the (possibly partially) mutated post, the message of the exception
that escaped `publish_post` (or `none`), and whether `post_to_blogger` was
invoked.  The branches follow the source in order: configuration
precondition, article generation, optional image generation (inlined as the
`image_url` argument of `post_to_blogger`), optional plagiarism gate, post to
Blogger, then the four success-field assignments followed by
`track_performance` — all inside the same `try`, whose `except` re-raises, so
a raising tracker escapes with the success fields already assigned. -/
def publish_post (is_configured : Bool) (cs : ContentSettings) (co : Collaborators)
    (now : Nat) (post : ScheduledPost) : ScheduledPost × Option String × Bool :=
  if is_configured = false then
    (post, some "API keys not configured. Please set up API keys first.", false)
  else
    match co.generate_article post.title post.keywords with
    | .error e => (post, some e, false)
    | .ok article =>
      if cs.plagiarism_check = true ∧ co.check_plagiarism article.content > 15 then
        (post, some (plagiarism_error (co.check_plagiarism article.content)), false)
      else
        match co.post_to_blogger post.title article.content article.meta_description
            (if cs.auto_generate_images = true then
              co.create_image (generate_image_prompt post.title)
            else none)
            article.keywords with
        | .error e => (post, some e, true)
        | .ok post_url =>
          match co.track_performance post_url post.title with
          | .ok _ =>
            ({ post with
                status := .published
                publishedAt := some now
                url := some post_url
                word_count := some article.word_count }, none, true)
          | .error e =>
            ({ post with
                status := .published
                publishedAt := some now
                url := some post_url
                word_count := some article.word_count }, some e, true)

/-- Due predicate of `app.py`'s `process_scheduled_posts` (lines 80-86):
a post is picked when `status == 'scheduled'` and its target date is today or
earlier (`datetime.fromisoformat(p['publish_date']).date() <= today`). -/
def dueDateOnly (today : Nat) (p : ScheduledPost) : Bool :=
  decide (p.status = .scheduled ∧ p.publishDay ≤ today)

/-- Due predicate of the other revision's `process_scheduled_posts`
(`deepseek_python_20251107_97ace3.py`, lines 380-388): a post is picked when
`status == 'scheduled'` and its target date equals today
(`datetime.fromisoformat(p['publish_date']).date() == today`). -/
def dueExactDate (today : Nat) (p : ScheduledPost) : Bool :=
  decide (p.status = .scheduled ∧ p.publishDay = today)

/-- One due post's treatment inside the `for post in posts_to_publish` loop of
`process_scheduled_posts` (`app.py`, lines 94-107): attempt `publish_post`;
on an escaping exception set `status='failed'`, `error=str(e)`,
`last_attempt=now`. -/
def attemptPublish (is_configured : Bool) (cs : ContentSettings) (co : Collaborators)
    (now : Nat) (p : ScheduledPost) : ScheduledPost :=
  match (publish_post is_configured cs co now p).2.1 with
  | none => (publish_post is_configured cs co now p).1
  | some e =>
    { (publish_post is_configured cs co now p).1 with
        status := .failed, error := some e, last_attempt := some now }

/-- Embedding of `AutoPostingSystem.process_scheduled_posts` (`app.py`,
lines 74-112): the due set is computed up front from statuses and dates that
`publish_post` never changes for other posts, so the scan is the pointwise
map that publishes each due post and leaves every other post untouched. -/
def process_scheduled_posts (is_configured : Bool) (cs : ContentSettings) (co : Collaborators)
    (now today : Nat) (posts : List ScheduledPost) : List ScheduledPost :=
  posts.map (fun p =>
    if dueDateOnly today p = true then attemptPublish is_configured cs co now p else p)

/-- Post dict built by the manual-creation route (`app.py`, `handle_posts`
POST, lines 1029-1036). -/
def createManualPost (numPosts : Nat) (title : String) (keywords : List String)
    (publishDay publishTime nowDay : Nat) : ScheduledPost :=
  { id := numPosts + 1, title := title, keywords := keywords,
    publishDay := publishDay, publishTime := publishTime,
    status := .scheduled, createdDay := nowDay }

/-! ## Bulk scheduling (`app.py`, `schedule_bulk_titles`, lines 1129-1178) -/

/-- Status of a `bulk_titles.json` entry. -/
inductive BulkStatus
  | pending
  | scheduled
deriving DecidableEq, Repr

/-- A record of `bulk_titles.json` (`add_bulk_titles`, lines 414-430). -/
structure BulkTitle where
  title : String := ""
  keywords : List String := []
  addedDay : Nat := 0
  status : BulkStatus := .pending
deriving DecidableEq, Repr

/-- Scheduled-post dict appended for one bulk title (`schedule_bulk_titles`,
lines 1153-1162). -/
def mkBulkPost (post_id : Nat) (t : BulkTitle) (day time_of_day created : Nat) :
    ScheduledPost :=
  { id := post_id, title := t.title, keywords := t.keywords,
    publishDay := day, publishTime := time_of_day,
    status := .scheduled, createdDay := created, postType := some "bulk" }

/-- The `for title_data in pending_titles` loop of `schedule_bulk_titles`:
when `scheduled_count >= posts_per_day`, advance `current_date` one day and
reset the counter; schedule the title on the current date at the configured
time; ids continue from `len(scheduled_posts) + 1`. -/
def scheduleLoop (k time_of_day today : Nat) :
    List BulkTitle → Nat → Nat → Nat → List ScheduledPost
  | [], _, _, _ => []
  | t :: ts, scheduled_count, current_day, next_id =>
    if k ≤ scheduled_count then
      mkBulkPost next_id t (current_day + 1) time_of_day today ::
        scheduleLoop k time_of_day today ts 1 (current_day + 1) (next_id + 1)
    else
      mkBulkPost next_id t current_day time_of_day today ::
        scheduleLoop k time_of_day today ts (scheduled_count + 1) current_day (next_id + 1)

/-- The `pending_titles` filter of `schedule_bulk_titles` (line 1134). -/
def pendingOf (bulk : List BulkTitle) : List BulkTitle :=
  bulk.filter (fun t => t.status = .pending)

/-- The new posts created by one run of `schedule_bulk_titles`: the loop
starts with `scheduled_count = 0`, `current_date = now` and ids from
`len(scheduled_posts) + 1`. -/
def newPostsOf (bulk : List BulkTitle) (posts : List ScheduledPost)
    (k time_of_day today : Nat) : List ScheduledPost :=
  scheduleLoop k time_of_day today (pendingOf bulk) 0 today (posts.length + 1)

/-- Embedding of the `/api/schedule-bulk` handler `schedule_bulk_titles`
(`app.py`, lines 1129-1178): append one new scheduled post per pending bulk
title and mark every consumed entry `scheduled`. -/
def schedule_bulk_titles (bulk : List BulkTitle) (posts : List ScheduledPost)
    (k time_of_day today : Nat) : List ScheduledPost × List BulkTitle :=
  (posts ++ newPostsOf bulk posts k time_of_day today,
   bulk.map (fun t => if t.status = .pending then { t with status := .scheduled } else t))

/-- Concrete article payload used by the witness scenarios. -/
def articleStub : ArticleData :=
  { content := "body", meta_description := "meta", keywords := ["crypto"], word_count := 4 }

/-- Concrete collaborators for which every pipeline step succeeds. -/
def collabOk : Collaborators :=
  { generate_article := fun _ _ => .ok articleStub
    create_image := fun _ => none
    check_plagiarism := fun _ => 2
    post_to_blogger := fun _ _ _ _ _ => .ok "https://cryptoajah.blogspot.com/123456"
    track_performance := fun _ _ => .ok () }

/-- Collaborators whose performance tracker raises. -/
def collabTrackRaises : Collaborators :=
  { collabOk with track_performance := fun _ _ => .error "performance database unavailable" }

/-- Collaborators whose plagiarism score is above the threshold. -/
def collabHighPlagiarism : Collaborators :=
  { collabOk with check_plagiarism := fun _ => 20 }

/-- Content settings with both toggles at their defaults (image generation
and plagiarism check enabled). -/
def settingsDefault : ContentSettings := {}

/-- A scheduled post due today. -/
def duePost : ScheduledPost := { id := 1, title := "Bitcoin", status := .scheduled, publishDay := 0 }

/-- A scheduled post with a future target date. -/
def futurePost : ScheduledPost := { id := 2, title := "Later", status := .scheduled, publishDay := 9 }

/-- An already published post. -/
def donePost : ScheduledPost :=
  { id := 3, title := "Done", status := .published, publishDay := 0,
    url := some "https://cryptoajah.blogspot.com/9", publishedAt := some 1 }

/-! ## CSV ingestion (`app.py`, `process_csv_file`, lines 679-778)

The byte decoding, delimiter detection and the `csv.reader` tokenisation
(standard-library code, not repository code) are modelled as the already
parsed cell rows, header row first; the claims are about the header/column
selection and the cell processing. -/

/-- Header substrings selecting the title column
(`['title', 'judul', 'post', 'article']`). -/
def titleHeaderWords : List String := ["title", "judul", "post", "article"]

/-- Check of one header against the title words: `any(keyword in header_lower
for keyword in [...])` on `header.lower().strip()`. -/
def headerIsTitle (h : String) : Bool :=
  titleHeaderWords.any (fun w => pyContains (pyStrip (pyLower h.data)) w.data)

/-- Check of one header for the keyword column: `'keyword' in header_lower`. -/
def headerIsKeyword (h : String) : Bool :=
  pyContains (pyStrip (pyLower h.data)) ("keyword".data)

/-- Column-selection loop of `process_csv_file` (lines 727-739): title column
defaults to 0, the `if`/`elif` chain lets the last matching header win. -/
def findColumns (headers : List String) : Nat × Option Nat :=
  headers.enum.foldl
    (fun acc ih =>
      if headerIsTitle ih.2 then (ih.1, acc.2)
      else if headerIsKeyword ih.2 then (acc.1, some ih.1)
      else acc)
    (0, none)

/-- Keyword-cell processing (line 757):
`[k.strip() for k in keyword_str.split(',') if k.strip()]`. -/
def splitKeywordCell (keyword_str : List Char) : List String :=
  ((((pySplit ',' keyword_str).map pyStrip).filter (fun k => !k.isEmpty)).map String.mk)

/-- Row-processing loop body of `process_csv_file` (lines 742-771): skip empty
rows and rows without a title cell or with a blank title; append the stripped
title; when a keyword column was selected, the row is long enough and the
stripped cell is non-blank, record `keywords_map[title] = keywords`.  The
`keywords_map` dict is modelled as a function from titles to optional keyword
lists, dict assignment overriding the previous binding. -/
def processRow (title_index : Nat) (keyword_index : Option Nat)
    (acc : List String × (String → Option (List String))) (row : List String) :
    List String × (String → Option (List String)) :=
  if row.isEmpty then acc
  else
    match row.get? title_index with
    | none => acc
    | some cell =>
      let title := pyStripStr cell
      if title = "" then acc
      else
        match keyword_index with
        | none => (acc.1 ++ [title], acc.2)
        | some ki =>
          match row.get? ki with
          | none => (acc.1 ++ [title], acc.2)
          | some kcell =>
            let keyword_str := pyStrip kcell.data
            if keyword_str.isEmpty then (acc.1 ++ [title], acc.2)
            else (acc.1 ++ [title],
              fun t => if t = title then some (splitKeywordCell keyword_str) else acc.2 t)

/-- Embedding of `process_csv_file` on the parsed rows: take the header row,
select the title and keyword columns, then fold the row loop over the body. -/
def process_csv_file (rows : List (List String)) :
    List String × (String → Option (List String)) :=
  match rows with
  | [] => ([], fun _ => none)
  | headers :: body =>
    body.foldl (processRow (findColumns headers).1 (findColumns headers).2)
      ([], fun _ => none)

/-- Condition under which one row of the CSV loop assigns
`keywords_map[t] = ...`, overriding any earlier binding of the title `t`:
the row is non-empty, its stripped title cell equals `t` (and is non-blank),
and its keyword cell exists and is non-blank after stripping. -/
def rowRebinds (title_index keyword_index : Nat) (t : String) (row : List String) : Bool :=
  !row.isEmpty &&
    (match row.get? title_index with
     | none => false
     | some cell =>
       (pyStripStr cell == t) && !(pyStripStr cell == "") &&
         (match row.get? keyword_index with
          | none => false
          | some kcell => !(pyStrip kcell.data).isEmpty))

/-- Concrete pending bulk titles for the C3 witness. -/
def bulk0 : List BulkTitle := [{ title := "A" }, { title := "B" }, { title := "C" }]

/-! ## Theorems about ingestion, keys and the plagiarism heuristic -/

/-- Helper: the fold in `process_txt_file` accumulates exactly the kept
stripped lines, for any starting accumulator. -/
theorem process_txt_foldl (ls : List (List Char)) (acc : List String) :
    ls.foldl
      (fun titles rawLine =>
        let line := pyStrip rawLine
        if keepTxtLine line then titles ++ [String.mk line] else titles)
      acc
      = acc ++ ((ls.map pyStrip).filter keepTxtLine).map String.mk := by
  induction ls generalizing acc with
  | nil => simp
  | cons l ls ih =>
    simp only [List.foldl_cons, List.map_cons, List.filter_cons]
    cases h : keepTxtLine (pyStrip l) with
    | true => simp [ih, h]
    | false => simp [ih, h]

/-- Claim C7: for every uploaded TXT file, ingestion yields exactly the
stripped non-blank lines not prefixed by `#`, in original input order — hence
exactly N titles for N such lines; in particular the input lines
`["Foo", "", "# comment", "Bar"]` yield exactly `["Foo", "Bar"]`. -/
theorem txt_ingestion_keeps_lines_in_order :
    (∀ content : String,
      process_txt_file content = txtTitlesOf content ∧
      (process_txt_file content).length =
        ((pySplit '\n' content.data).map pyStrip).countP keepTxtLine) ∧
    process_txt_file "Foo\n\n# comment\nBar" = ["Foo", "Bar"] := by
  constructor
  · intro content
    have h := process_txt_foldl (pySplit '\n' content.data) []
    constructor
    · simpa [process_txt_file, txtTitlesOf] using h
    · have h2 : process_txt_file content = txtTitlesOf content := by
        simpa [process_txt_file, txtTitlesOf] using h
      rw [h2, txtTitlesOf, List.length_map, ← List.countP_eq_length_filter]
  · decide

/-- Claim C10, counterexample: for a content string whose sampled text is
shorter than 50 characters and with no search API key available,
`check_plagiarism` returns `0.0`, not the claimed fixed low mock score
(`1.0` or `2.5`). -/
theorem check_plagiarism_short_returns_zero :
    sample_text "short text" = "short text".data ∧
    (sample_text "short text").length < 50 ∧
    check_plagiarism none "short text" = 0 ∧
    ¬ ((0 : ℚ) = 1 ∨ (0 : ℚ) = 5 / 2) := by
  refine ⟨by decide, by decide, ?_, by norm_num⟩
  unfold check_plagiarism simple_content_check
  rw [if_pos (Or.inr (by decide))]

/-- Claim C10, amended: `check_plagiarism` is total and never raises; it
returns `0.0` when the sampled text is shorter than 50 characters (and in the
unreachable internal-error branches), `1.0` when the sample is long enough
but no search API key is available, and the fixed mock score `2.5` when a key
is available; every returned score is at most `2.5`, hence never above the
publish threshold `15`, so this checker can never by itself abort a publish
with a plagiarism error. -/
theorem check_plagiarism_total_cases (key : Option String) (content : String) :
    ((sample_text content).length < 50 → check_plagiarism key content = 0) ∧
    (¬ (sample_text content).length < 50 → key = none →
      check_plagiarism key content = 1) ∧
    (¬ (sample_text content).length < 50 → ∀ k, key = some k →
      check_plagiarism key content = 5 / 2) ∧
    check_plagiarism key content ≤ 5 / 2 ∧
    ¬ check_plagiarism key content > 15 := by
  have hcases : check_plagiarism key content = 0 ∨ check_plagiarism key content = 1 ∨
      check_plagiarism key content = (5 : ℚ) / 2 := by
    unfold check_plagiarism simple_content_check
    rcases key with _ | k
    · split
      · exact Or.inl rfl
      · exact Or.inr (Or.inl rfl)
    · split
      · exact Or.inl rfl
      · exact Or.inr (Or.inr rfl)
  refine ⟨?_, ?_, ?_, ?_, ?_⟩
  · intro h
    unfold check_plagiarism simple_content_check
    rw [if_pos (Or.inr h)]
  · intro h hk
    subst hk
    unfold check_plagiarism simple_content_check
    rw [if_neg]
    rintro (h0 | hlt)
    · exact h (by rw [h0]; decide)
    · exact h hlt
  · intro h k hk
    subst hk
    unfold check_plagiarism simple_content_check
    rw [if_neg]
    rintro (h0 | hlt)
    · exact h (by rw [h0]; decide)
    · exact h hlt
  · obtain h | h | h := hcases <;> rw [h] <;> norm_num
  · obtain h | h | h := hcases <;> rw [h] <;> norm_num

/-- Witness for the amended C10 theorem at a concrete short input. -/
theorem check_plagiarism_total_cases_witness :
    check_plagiarism none "short text" = 0 :=
  (check_plagiarism_total_cases none "short text").1 (by decide)

/-- Claim C9, counterexample: updating the default key record with a
non-empty `google_client_id` stores a non-empty provider credential, yet
`is_configured` stays `false` — it is not "true iff at least one stored
provider credential field is non-empty". -/
theorem update_keys_google_id_not_configured :
    (update_keys defaultAPIKeys [("google_client_id", "client-123")]).google_client_id
      = "client-123" ∧
    (update_keys defaultAPIKeys [("google_client_id", "client-123")]).is_configured = false := by
  refine ⟨by decide, by decide⟩

/-- Claim C9, amended: after every `update_keys`, `is_configured` is true if
and only if at least one of the three fields `openai_api_key`, `hf_api_key`,
`blogger_blog_id` is non-empty; `google_client_id` and `google_client_secret`
do not enter the computation. -/
theorem update_keys_is_configured_iff (ks : APIKeys) (new_keys : List (String × String)) :
    (update_keys ks new_keys).is_configured = true ↔
      ((update_keys ks new_keys).openai_api_key ≠ "" ∨
       (update_keys ks new_keys).hf_api_key ≠ "" ∨
       (update_keys ks new_keys).blogger_blog_id ≠ "") := by
  unfold update_keys
  simp [Bool.or_eq_true, bne_iff_ne, or_assoc]

/-! ## Theorems about the publish pipeline and the poller -/

/-- Helper: when `publish_post` escapes with no exception, the returned post
is the fully published one: status `published` with `url` and `published_at`
assigned. -/
theorem publish_post_none_published (is_configured : Bool) (cs : ContentSettings)
    (co : Collaborators) (now : Nat) (p : ScheduledPost) :
    (publish_post is_configured cs co now p).2.1 = none →
      (publish_post is_configured cs co now p).1.status = .published ∧
      (publish_post is_configured cs co now p).1.url.isSome ∧
      (publish_post is_configured cs co now p).1.publishedAt.isSome := by
  unfold publish_post
  split
  · intro h; simp at h
  · split
    · intro h; simp at h
    · split
      · intro h; simp at h
      · split
        · intro h; simp at h
        · split
          · intro _; exact ⟨rfl, rfl, rfl⟩
          · intro h; simp at h

/-- Helper: when `publish_post` escapes with an exception, the returned post
is either the untouched input (steps 1-5 aborted) or the fully published one
(only the tracker raised, after the success fields were assigned). -/
theorem publish_post_some_cases (is_configured : Bool) (cs : ContentSettings)
    (co : Collaborators) (now : Nat) (p : ScheduledPost) (e : String) :
    (publish_post is_configured cs co now p).2.1 = some e →
      (publish_post is_configured cs co now p).1 = p ∨
      ((publish_post is_configured cs co now p).1.status = .published ∧
       (publish_post is_configured cs co now p).1.url.isSome ∧
       (publish_post is_configured cs co now p).1.publishedAt.isSome) := by
  unfold publish_post
  split
  · intro _; exact Or.inl rfl
  · split
    · intro _; exact Or.inl rfl
    · split
      · intro _; exact Or.inl rfl
      · split
        · intro _; exact Or.inl rfl
        · split
          · intro h; simp at h
          · intro _; exact Or.inr ⟨rfl, rfl, rfl⟩

/-- Helper: the per-post publish attempt always re-establishes the status
invariant, whatever the collaborators do. -/
theorem attemptPublish_invariant (is_configured : Bool) (cs : ContentSettings)
    (co : Collaborators) (now : Nat) (p : ScheduledPost) :
    postInvariant (attemptPublish is_configured cs co now p) := by
  unfold attemptPublish
  split
  · rename_i hnone
    exact ⟨fun _ => (publish_post_none_published _ _ _ _ _ hnone).2, fun hf => by
      rw [(publish_post_none_published _ _ _ _ _ hnone).1] at hf; simp at hf⟩
  · exact ⟨fun hpub => by simp at hpub, fun _ => by simp⟩

/-- Helper: every post created by the bulk-scheduling loop is `scheduled`,
carries the configured time-of-day, and its title is the consumed bulk
title's, in input order. -/
theorem scheduleLoop_mem_scheduled (k time_of_day today : Nat) (ts : List BulkTitle)
    (c d n : Nat) :
    ∀ q ∈ scheduleLoop k time_of_day today ts c d n,
      q.status = .scheduled ∧ q.publishTime = time_of_day := by
  induction ts generalizing c d n with
  | nil => intro q hq; simp [scheduleLoop] at hq
  | cons t ts ih =>
    intro q hq
    rw [scheduleLoop] at hq
    split at hq <;> rcases List.mem_cons.mp hq with rfl | hq
    · exact ⟨rfl, rfl⟩
    · exact ih _ _ _ q hq
    · exact ⟨rfl, rfl⟩
    · exact ih _ _ _ q hq

/-- Claim C1: after any operation of the system — the poller scan
`process_scheduled_posts`, a bare `publish_post`, one publish attempt of a
due post, manual post creation, and bulk scheduling — every `ScheduledPost`
satisfies the invariant: `published` implies `url` and `published_at` set,
`failed` implies `error` set; a post transitioning to `published` has both
fields assigned and one transitioning to `failed` has `error` assigned. -/
theorem post_invariants_preserved (is_configured : Bool) (cs : ContentSettings)
    (co : Collaborators) (now today : Nat) (posts : List ScheduledPost) (p : ScheduledPost)
    (h : ∀ q ∈ posts, postInvariant q) (hp : postInvariant p) :
    (∀ q ∈ process_scheduled_posts is_configured cs co now today posts, postInvariant q) ∧
    postInvariant (publish_post is_configured cs co now p).1 ∧
    postInvariant (attemptPublish is_configured cs co now p) ∧
    (∀ numPosts title keywords publishDay publishTime nowDay,
      postInvariant (createManualPost numPosts title keywords publishDay publishTime nowDay)) ∧
    (∀ (bulk : List BulkTitle) (prev : List ScheduledPost) (k time_of_day : Nat),
      (∀ q ∈ prev, postInvariant q) →
      ∀ q ∈ (schedule_bulk_titles bulk prev k time_of_day today).1, postInvariant q) := by
  refine ⟨?_, ?_, attemptPublish_invariant is_configured cs co now p, ?_, ?_⟩
  · intro q hq
    rw [process_scheduled_posts] at hq
    obtain ⟨r, hr, rfl⟩ := List.mem_map.mp hq
    split
    · exact attemptPublish_invariant _ _ _ _ _
    · exact h r hr
  · cases hcase : (publish_post is_configured cs co now p).2.1 with
    | none =>
      exact ⟨fun _ => (publish_post_none_published _ _ _ _ _ hcase).2, fun hf => by
        rw [(publish_post_none_published _ _ _ _ _ hcase).1] at hf; simp at hf⟩
    | some e =>
      rcases publish_post_some_cases is_configured cs co now p e hcase with hsame | hfull
      · rw [hsame]; exact hp
      · exact ⟨fun _ => hfull.2, fun hf => by rw [hfull.1] at hf; simp at hf⟩
  · intro numPosts title keywords publishDay publishTime nowDay
    exact ⟨fun hcon => by simp [createManualPost] at hcon, fun hcon => by
      simp [createManualPost] at hcon⟩
  · intro bulk prev k time_of_day hprev q hq
    rw [schedule_bulk_titles] at hq
    rcases List.mem_append.mp hq with hmem | hmem
    · exact hprev q hmem
    · have hs := scheduleLoop_mem_scheduled k time_of_day today (pendingOf bulk) 0 today
        (prev.length + 1) q hmem
      exact ⟨fun hpub => by rw [hs.1] at hpub; simp at hpub, fun hf => by
        rw [hs.1] at hf; simp at hf⟩

/-- Witness for C1 at a concrete due post and a raising tracker. -/
theorem post_invariants_preserved_witness :
    postInvariant (attemptPublish true settingsDefault collabTrackRaises 7 duePost) :=
  (post_invariants_preserved true settingsDefault collabTrackRaises 7 0 [duePost] duePost
    (by decide) (by decide)).2.2.1

/-- Claim C4: a poller scan at a time when no `scheduled` post has a due
target date (today or earlier) leaves the scheduled-posts array unchanged in
content — the scan is idempotent in the absence of newly-due posts. -/
theorem scan_without_due_posts_is_identity (is_configured : Bool) (cs : ContentSettings)
    (co : Collaborators) (now today : Nat) (posts : List ScheduledPost)
    (h : ∀ p ∈ posts, ¬ (p.status = .scheduled ∧ p.publishDay ≤ today)) :
    process_scheduled_posts is_configured cs co now today posts = posts := by
  unfold process_scheduled_posts
  induction posts with
  | nil => rfl
  | cons p ps ih =>
    have hd : dueDateOnly today p = false := by
      unfold dueDateOnly
      exact decide_eq_false (h p (List.mem_cons_self p ps))
    rw [List.map_cons, hd]
    rw [if_neg (by simp), ih (fun q hq => h q (List.mem_cons_of_mem p hq))]

/-- Witness for C4 at a concrete array with a future post and a published
post. -/
theorem scan_without_due_posts_is_identity_witness :
    process_scheduled_posts true settingsDefault collabOk 7 0 [futurePost, donePost]
      = [futurePost, donePost] :=
  scan_without_due_posts_is_identity true settingsDefault collabOk 7 0 [futurePost, donePost]
    (by decide)

/-- Claim C5: the two due-predicates found across revisions — `app.py`'s
date-only comparison (due when the target date is today or earlier) and the
other revision's exact-date match — are incompatible: a scheduled post whose
target date is strictly before today is due for the first and not for the
second. -/
theorem due_predicates_disagree :
    ∃ (today : Nat) (p : ScheduledPost), p.status = .scheduled ∧ p.publishDay < today ∧
      dueDateOnly today p = true ∧ dueExactDate today p = false :=
  ⟨1, { status := .scheduled, publishDay := 0 }, rfl, by decide, by decide, by decide⟩

/-- Helper: the plagiarism exception text is never the empty string. -/
theorem plagiarism_error_ne_empty (s : ℚ) : plagiarism_error s ≠ "" := by
  unfold plagiarism_error
  intro hcon
  have h2 := congrArg String.data hcon
  simp only [String.data_append] at h2
  simp at h2

/-- Helper: with the configuration precondition met, a generated article and
an above-threshold plagiarism score, `publish_post` aborts with the
plagiarism exception before calling the hosting collaborator. -/
theorem publish_post_plagiarism_abort (cs : ContentSettings) (co : Collaborators)
    (now : Nat) (p : ScheduledPost) (article : ArticleData)
    (hart : co.generate_article p.title p.keywords = .ok article)
    (hplag : cs.plagiarism_check = true)
    (hscore : co.check_plagiarism article.content > 15) :
    publish_post true cs co now p =
      (p, some (plagiarism_error (co.check_plagiarism article.content)), false) := by
  unfold publish_post
  rw [if_neg (by simp)]
  simp only [hart]
  rw [if_pos ⟨hplag, hscore⟩]

/-- Claim C2: for a due post processed with plagiarism checking enabled, if
the plagiarism collaborator returns a score strictly above 15 then
`publish_post` raises the plagiarism error before any call to the
blog-hosting collaborator (the invoked-flag is `false`), and
`process_scheduled_posts` marks the post `failed` with a non-empty error
string. -/
theorem plagiarism_blocks_publish (cs : ContentSettings) (co : Collaborators)
    (now today : Nat) (posts : List ScheduledPost) (i : Nat) (p : ScheduledPost)
    (article : ArticleData)
    (hart : co.generate_article p.title p.keywords = .ok article)
    (hplag : cs.plagiarism_check = true)
    (hscore : co.check_plagiarism article.content > 15)
    (hdue : dueDateOnly today p = true)
    (hi : posts.get? i = some p) :
    (publish_post true cs co now p).2.2 = false ∧
    ∃ p', (process_scheduled_posts true cs co now today posts).get? i = some p' ∧
      p'.status = .failed ∧ ∃ e, p'.error = some e ∧ e ≠ "" := by
  have habort := publish_post_plagiarism_abort cs co now p article hart hplag hscore
  have hattempt : attemptPublish true cs co now p =
      { p with
          status := .failed
          error := some (plagiarism_error (co.check_plagiarism article.content))
          last_attempt := some now } := by
    unfold attemptPublish
    split
    · rename_i hnone
      rw [habort] at hnone
      simp at hnone
    · rename_i e he
      rw [habort] at he
      simp only [Option.some.injEq] at he
      subst he
      rw [habort]
  constructor
  · rw [habort]
  · refine ⟨{ p with
        status := .failed
        error := some (plagiarism_error (co.check_plagiarism article.content))
        last_attempt := some now }, ?_, rfl,
      plagiarism_error (co.check_plagiarism article.content), rfl,
      plagiarism_error_ne_empty _⟩
    rw [process_scheduled_posts, List.get?_map, hi, Option.map_some', if_pos hdue, hattempt]

/-- Witness for C2 at a concrete due post and an above-threshold score. -/
theorem plagiarism_blocks_publish_witness :
    (publish_post true settingsDefault collabHighPlagiarism 7 duePost).2.2 = false :=
  (plagiarism_blocks_publish settingsDefault collabHighPlagiarism 7 0 [duePost] 0 duePost
    articleStub rfl rfl (by decide) (by decide) rfl).1

/-- Claim C6, counterexample: with collaborators for which every step up to
and including `post_to_blogger` succeeds (the post's `url` is assigned) but
whose performance tracker raises, the poller marks the post `failed`, not
`published` — the tracker failure does fail the publish. -/
theorem track_failure_marks_post_failed :
    (process_scheduled_posts true settingsDefault collabTrackRaises 7 0 [duePost]).map
        ScheduledPost.status = [PostStatus.failed] ∧
    (process_scheduled_posts true settingsDefault collabTrackRaises 7 0 [duePost]).map
        ScheduledPost.url = [some "https://cryptoajah.blogspot.com/123456"] ∧
    PostStatus.failed ≠ PostStatus.published := by
  refine ⟨by decide, by decide, by decide⟩

/-- Claim C6, amended: when steps 1-5 succeed (the hosting collaborator
returns a URL) *and* the performance-tracking notification does not raise —
which is the case for both tracker implementations in the repository, since
they swallow all errors internally — the post ends `published` with its
`url` and `published_at` set; when the tracker does raise, `publish_post`
propagates the exception and the poller marks the already-submitted post
`failed`. -/
theorem publish_success_when_tracker_ok (cs : ContentSettings) (co : Collaborators)
    (now today : Nat) (posts : List ScheduledPost) (i : Nat) (p : ScheduledPost)
    (article : ArticleData) (u : String)
    (hart : co.generate_article p.title p.keywords = .ok article)
    (hplag : ¬ (cs.plagiarism_check = true ∧ co.check_plagiarism article.content > 15))
    (hblog : co.post_to_blogger p.title article.content article.meta_description
        (if cs.auto_generate_images = true then co.create_image (generate_image_prompt p.title)
         else none) article.keywords = .ok u)
    (htrack : co.track_performance u p.title = .ok ())
    (hdue : dueDateOnly today p = true)
    (hi : posts.get? i = some p) :
    ∃ p', (process_scheduled_posts true cs co now today posts).get? i = some p' ∧
      p'.status = .published ∧ p'.url = some u ∧ p'.publishedAt = some now := by
  have hpub : publish_post true cs co now p =
      ({ p with
          status := .published
          publishedAt := some now
          url := some u
          word_count := some article.word_count }, none, true) := by
    unfold publish_post
    rw [if_neg (by simp)]
    simp only [hart]
    rw [if_neg hplag]
    simp only [hblog, htrack]
  have hattempt : attemptPublish true cs co now p =
      { p with
          status := .published
          publishedAt := some now
          url := some u
          word_count := some article.word_count } := by
    unfold attemptPublish
    split
    · rw [hpub]
    · rename_i e he
      rw [hpub] at he
      simp at he
  refine ⟨{ p with
      status := .published
      publishedAt := some now
      url := some u
      word_count := some article.word_count }, ?_, rfl, rfl, rfl⟩
  rw [process_scheduled_posts, List.get?_map, hi, Option.map_some', if_pos hdue, hattempt]

/-- Witness for the amended C6 theorem at a concrete due post with the
all-success collaborators. -/
theorem publish_success_when_tracker_ok_witness :
    ∃ p', (process_scheduled_posts true settingsDefault collabOk 7 0 [duePost]).get? 0
        = some p' ∧
      p'.status = .published ∧ p'.url = some "https://cryptoajah.blogspot.com/123456" ∧
      p'.publishedAt = some 7 :=
  publish_success_when_tracker_ok settingsDefault collabOk 7 0 [duePost] 0 duePost
    articleStub "https://cryptoajah.blogspot.com/123456" rfl (by decide) rfl rfl (by decide) rfl

/-- Helper: a row with a non-blank stripped title `t` and keyword cell
`"a, b, c"` binds `t` to `["a", "b", "c"]`, whatever the accumulator holds. -/
theorem processRow_sets_keywords (ti ki : Nat)
    (acc : List String × (String → Option (List String))) (row : List String) (t : String)
    (hrow : row.isEmpty = false)
    (ht : row.get? ti = some t)
    (htt : pyStripStr t = t) (hne : t ≠ "")
    (hcell : row.get? ki = some "a, b, c") :
    (processRow ti (some ki) acc row).2 t = some ["a", "b", "c"] := by
  unfold processRow
  simp only [hrow, Bool.false_eq_true, if_false, ht, hcell, htt]
  rw [if_neg hne, if_neg (by decide)]
  show (if t = t then some (splitKeywordCell (pyStrip ['a', ',', ' ', 'b', ',', ' ', 'c']))
      else acc.2 t) = some ["a", "b", "c"]
  rw [if_pos rfl]
  rfl

/-- Helper: a row that does not rebind the title `t` leaves the keywords-map
binding of `t` unchanged. -/
theorem processRow_keeps_binding (ti ki : Nat) (t : String)
    (acc : List String × (String → Option (List String))) (row : List String)
    (h : rowRebinds ti ki t row = false) :
    (processRow ti (some ki) acc row).2 t = acc.2 t := by
  by_cases hre : row.isEmpty
  · simp [processRow, hre]
  · have hre' : row.isEmpty = false := eq_false_of_ne_true hre
    cases hcell : row[ti]? with
    | none => simp [processRow, hre', hcell]
    | some cell =>
      by_cases htitle : pyStripStr cell = ""
      · simp [processRow, hre', hcell, htitle]
      · cases hkcell : row[ki]? with
        | none => simp [processRow, hre', hcell, hkcell, htitle]
        | some kcell =>
          by_cases hks : (pyStrip kcell.data).isEmpty
          · simp [processRow, hre', hcell, hkcell, htitle, hks]
          · have hnt : ¬ (t = pyStripStr cell) := by
              intro heq
              have htrue : rowRebinds ti ki t row = true := by
                simp [rowRebinds, hre', hcell, hkcell, htitle, hks, heq.symm]
                rw [heq]
                exact htitle
              rw [h] at htrue
              exact Bool.false_ne_true htrue
            simp [processRow, hre', hcell, hkcell, htitle, hks, hnt]

/-- Helper: folding the row loop over rows none of which rebinds the title
`t` leaves the binding of `t` unchanged. -/
theorem foldl_processRow_preserves (ti ki : Nat) (t : String) (body : List (List String))
    (acc : List String × (String → Option (List String)))
    (h : ∀ r ∈ body, rowRebinds ti ki t r = false) :
    (body.foldl (processRow ti (some ki)) acc).2 t = acc.2 t := by
  induction body generalizing acc with
  | nil => rfl
  | cons r rs ih =>
    rw [List.foldl_cons, ih _ (fun r' hr' => h r' (List.mem_cons_of_mem r hr')),
      processRow_keeps_binding ti ki t acc r (h r (List.mem_cons_self r rs))]

/-- Claim C8, counterexample: with a keyword-selecting header, the row
`["Foo", "a, b, c"]` does not make the map bind `"Foo"` to
`["a", "b", "c"]` when a later row with the same title carries another
keyword cell — `keywords_map[title] = keywords` is last-row-wins, so the
final binding is `["x"]`. -/
theorem csv_duplicate_title_overrides :
    (process_csv_file [["title", "keywords"], ["Foo", "a, b, c"], ["Foo", "x"]]).2 "Foo"
        = some ["x"] ∧
    (process_csv_file [["title", "keywords"], ["Foo", "a, b, c"], ["Foo", "x"]]).2 "Foo"
        ≠ some ["a", "b", "c"] := by
  refine ⟨by decide, by decide⟩

/-- Claim C8, amended: for every CSV whose header selects a keyword column,
every row with a non-blank stripped title and keyword cell `"a, b, c"` — the
cell split on commas, each piece whitespace-trimmed — makes the map bind
that title to `["a", "b", "c"]`, *provided no later row rebinds the title*
(the dict assignment is last-row-wins); earlier rows may bind it freely. -/
theorem csv_keyword_cell_split_last_binding (headers : List String)
    (body1 : List (List String)) (row : List String) (body2 : List (List String))
    (t : String) (ki : Nat)
    (hrow : row.isEmpty = false)
    (hk : (findColumns headers).2 = some ki)
    (ht : row.get? (findColumns headers).1 = some t)
    (htt : pyStripStr t = t) (hne : t ≠ "")
    (hcell : row.get? ki = some "a, b, c")
    (hlater : ∀ r ∈ body2, rowRebinds (findColumns headers).1 ki t r = false) :
    (process_csv_file (headers :: (body1 ++ row :: body2))).2 t = some ["a", "b", "c"] := by
  simp only [process_csv_file]
  rw [hk, List.foldl_append, List.foldl_cons]
  rw [foldl_processRow_preserves (findColumns headers).1 ki t body2 _ hlater]
  exact processRow_sets_keywords (findColumns headers).1 ki _ row t hrow ht htt hne hcell

/-- Witness for the amended C8 theorem at a concrete CSV with one earlier
and one later row around the `"a, b, c"` row. -/
theorem csv_keyword_cell_split_last_binding_witness :
    (process_csv_file
        [["title", "keywords"], ["Bar", "z"], ["Foo", "a, b, c"], ["Baz", "w"]]).2 "Foo"
      = some ["a", "b", "c"] :=
  csv_keyword_cell_split_last_binding ["title", "keywords"] [["Bar", "z"]]
    ["Foo", "a, b, c"] [["Baz", "w"]] "Foo" 1
    rfl (by decide) (by decide) (by decide) (by decide) rfl (by decide)

/-- Helper: the bulk loop creates exactly one post per consumed title. -/
theorem scheduleLoop_length (k time_of_day today : Nat) (ts : List BulkTitle) (c d n : Nat) :
    (scheduleLoop k time_of_day today ts c d n).length = ts.length := by
  induction ts generalizing c d n with
  | nil => rfl
  | cons t ts ih =>
    rw [scheduleLoop]
    split <;> simp [ih]

/-- Helper: the bulk loop copies the titles in input order. -/
theorem scheduleLoop_titles (k time_of_day today : Nat) (ts : List BulkTitle) (c d n : Nat) :
    (scheduleLoop k time_of_day today ts c d n).map ScheduledPost.title
      = ts.map BulkTitle.title := by
  induction ts generalizing c d n with
  | nil => rfl
  | cons t ts ih =>
    rw [scheduleLoop]
    split <;> simp [ih, mkBulkPost]

/-- Helper: closed form of the dates assigned by the bulk loop.  Starting
with `scheduled_count = c ≤ k` on day `d`, the i-th remaining title lands on
day `d + (c + i) / k`. -/
theorem scheduleLoop_days (k time_of_day today : Nat) (ts : List BulkTitle) (c d n : Nat)
    (hk : 0 < k) (hc : c ≤ k) :
    (scheduleLoop k time_of_day today ts c d n).map ScheduledPost.publishDay
      = (List.range ts.length).map (fun i => d + (c + i) / k) := by
  induction ts generalizing c d n hc with
  | nil => rfl
  | cons t ts ih =>
    rw [scheduleLoop]
    split
    · rename_i hck
      have hceq : k = c := le_antisymm hck hc
      subst hceq
      rw [List.map_cons, ih 1 (d + 1) (n + 1) hk]
      rw [List.length_cons, List.range_succ_eq_map, List.map_cons, List.map_map]
      congr 1
      · show (mkBulkPost n t (d + 1) time_of_day today).publishDay = d + (k + 0) / k
        simp [mkBulkPost, Nat.div_self hk]
      · have htail : ((fun i => d + (k + i) / k) ∘ Nat.succ) = fun i => (d + 1) + (1 + i) / k := by
          funext i
          show d + (k + (i + 1)) / k = (d + 1) + (1 + i) / k
          rw [Nat.add_comm k (i + 1), Nat.add_div_right _ hk, Nat.add_comm 1 i]
          omega
        rw [htail]
    · rename_i hck
      rw [List.map_cons, ih (c + 1) d (n + 1) (by omega)]
      rw [List.length_cons, List.range_succ_eq_map, List.map_cons, List.map_map]
      congr 1
      · show (mkBulkPost n t d time_of_day today).publishDay = d + (c + 0) / k
        simp [mkBulkPost, Nat.div_eq_of_lt (show c < k by omega)]
      · have htail : ((fun i => d + (c + i) / k) ∘ Nat.succ) = fun i => d + ((c + 1) + i) / k := by
          funext i
          show d + (c + (i + 1)) / k = d + ((c + 1) + i) / k
          rw [show c + (i + 1) = (c + 1) + i by omega]
        rw [htail]

/-- Helper: the dates of a fresh bulk run (`scheduled_count = 0`, first day
today). -/
theorem newPosts_days (bulk : List BulkTitle) (posts : List ScheduledPost)
    (k time_of_day today : Nat) (hk : 0 < k) :
    (newPostsOf bulk posts k time_of_day today).map ScheduledPost.publishDay
      = (List.range (pendingOf bulk).length).map (fun i => today + i / k) := by
  rw [newPostsOf, scheduleLoop_days k time_of_day today _ 0 today _ hk (Nat.zero_le k)]
  simp

/-- Helper: `toFinset` commutes with `map` on lists of naturals. -/
theorem toFinset_map_nat (l : List Nat) (f : Nat → Nat) :
    (l.map f).toFinset = l.toFinset.image f := by
  induction l with
  | nil => rfl
  | cons a l ih => simp [ih]

/-- Helper: `toFinset` of `List.range` is `Finset.range`. -/
theorem range_toFinset_eq (n : Nat) : (List.range n).toFinset = Finset.range n := by
  ext x
  simp

/-- Helper: `i ↦ d + i / k` on `0, …, M-1` takes exactly `⌈M/k⌉` distinct
values. -/
theorem distinct_days_card (d k M : Nat) (hM : 0 < M) (hk : 0 < k) :
    ((List.range M).map (fun i => d + i / k)).toFinset.card = (M + k - 1) / k := by
  rw [toFinset_map_nat, range_toFinset_eq]
  have himg : (Finset.range M).image (fun i => d + i / k)
      = (Finset.range ((M - 1) / k + 1)).image (fun j => d + j) := by
    ext y
    simp only [Finset.mem_image, Finset.mem_range]
    constructor
    · rintro ⟨i, hi, rfl⟩
      refine ⟨i / k, ?_, rfl⟩
      have h1 : i ≤ M - 1 := by omega
      exact Nat.lt_succ_of_le (Nat.div_le_div_right h1)
    · rintro ⟨j, hj, rfl⟩
      refine ⟨j * k, ?_, ?_⟩
      · have h1 : j ≤ (M - 1) / k := by omega
        have h2 : j * k ≤ ((M - 1) / k) * k := Nat.mul_le_mul_right k h1
        have h3 : ((M - 1) / k) * k ≤ M - 1 := Nat.div_mul_le_self _ _
        omega
      · rw [Nat.mul_div_cancel _ hk]
  rw [himg, Finset.card_image_of_injective _ (fun a b hab => by omega), Finset.card_range]
  rw [show M + k - 1 = (M - 1) + k by omega, Nat.add_div_right _ hk]

/-- Helper: at most `k` of the values `0, …, M-1` satisfy `d + i / k = y`. -/
theorem range_div_filter_length (d k M y : Nat) (hk : 0 < k) :
    ((List.range M).filter (fun i => decide (d + i / k = y))).length ≤ k := by
  by_cases hy : d ≤ y
  · have hnodup : ((List.range M).filter (fun i => decide (d + i / k = y))).Nodup :=
      (List.nodup_range M).filter _
    have hsub : ((List.range M).filter (fun i => decide (d + i / k = y))).toFinset
        ⊆ Finset.Ico ((y - d) * k) ((y - d) * k + k) := by
      intro x hx
      rw [List.mem_toFinset, List.mem_filter] at hx
      have hdx : d + x / k = y := of_decide_eq_true hx.2
      have hxk : x / k = y - d := by omega
      have h1 : (y - d) * k ≤ x := by
        have h := Nat.div_mul_le_self x k
        rw [hxk] at h
        exact h
      have h2 : x < (y - d) * k + k := by
        have hlt : x / k < (y - d) + 1 := by omega
        have h := (Nat.div_lt_iff_lt_mul hk).mp hlt
        rw [Nat.succ_mul] at h
        exact h
      exact Finset.mem_Ico.mpr ⟨h1, h2⟩
    calc ((List.range M).filter (fun i => decide (d + i / k = y))).length
        = ((List.range M).filter (fun i => decide (d + i / k = y))).toFinset.card :=
          (List.toFinset_card_of_nodup hnodup).symm
      _ ≤ (Finset.Ico ((y - d) * k) ((y - d) * k + k)).card := Finset.card_le_card hsub
      _ = k := by rw [Nat.card_Ico]; omega
  · have hempty : (List.range M).filter (fun i => decide (d + i / k = y)) = [] := by
      rw [List.filter_eq_nil]
      intro a _
      simp only [decide_eq_true_eq]
      intro heq
      have hge : d ≤ d + a / k := Nat.le_add_right _ _
      omega
    rw [hempty]
    exact Nat.zero_le k

/-- Helper: each calendar date receives at most `k` of the newly created bulk
posts. -/
theorem newPosts_count_per_day (bulk : List BulkTitle) (posts : List ScheduledPost)
    (k time_of_day today y : Nat) (hk : 0 < k) :
    ((newPostsOf bulk posts k time_of_day today).filter
        (fun p => decide (p.publishDay = y))).length ≤ k := by
  rw [← List.countP_eq_length_filter]
  have h1 : (newPostsOf bulk posts k time_of_day today).countP
        (fun p => decide (p.publishDay = y))
      = ((newPostsOf bulk posts k time_of_day today).map ScheduledPost.publishDay).countP
          (fun x => decide (x = y)) := by
    rw [List.countP_map]
    rfl
  rw [h1, newPosts_days bulk posts k time_of_day today hk, List.countP_map,
    List.countP_eq_length_filter]
  exact range_div_filter_length today k (pendingOf bulk).length y hk

/-- Claim C3: `schedule_bulk_titles` applied to M pending bulk titles with
`max_posts_per_day = k` (M > 0, k > 0) appends exactly M new scheduled
posts, whose target dates span exactly `ceil(M/k) = (M + k - 1) / k`
distinct calendar dates with at most k posts per date, all at the configured
time-of-day, titles in input order, and every consumed bulk entry ends
`scheduled`. -/
theorem bulk_scheduling_assignment (bulk : List BulkTitle) (posts : List ScheduledPost)
    (k time_of_day today : Nat)
    (hM : 0 < (pendingOf bulk).length) (hk : 0 < k) :
    (schedule_bulk_titles bulk posts k time_of_day today).1
        = posts ++ newPostsOf bulk posts k time_of_day today ∧
    (newPostsOf bulk posts k time_of_day today).length = (pendingOf bulk).length ∧
    (newPostsOf bulk posts k time_of_day today).map ScheduledPost.title
        = (pendingOf bulk).map BulkTitle.title ∧
    (∀ p ∈ newPostsOf bulk posts k time_of_day today,
      p.status = .scheduled ∧ p.publishTime = time_of_day) ∧
    ((newPostsOf bulk posts k time_of_day today).map ScheduledPost.publishDay).toFinset.card
        = ((pendingOf bulk).length + k - 1) / k ∧
    (∀ y, ((newPostsOf bulk posts k time_of_day today).filter
        (fun p => decide (p.publishDay = y))).length ≤ k) ∧
    (schedule_bulk_titles bulk posts k time_of_day today).2.map BulkTitle.title
        = bulk.map BulkTitle.title ∧
    (∀ t ∈ (schedule_bulk_titles bulk posts k time_of_day today).2,
      t.status = .scheduled) := by
  refine ⟨rfl, scheduleLoop_length k time_of_day today (pendingOf bulk) 0 today (posts.length + 1),
    scheduleLoop_titles k time_of_day today (pendingOf bulk) 0 today (posts.length + 1),
    scheduleLoop_mem_scheduled k time_of_day today (pendingOf bulk) 0 today (posts.length + 1),
    ?_, fun y => newPosts_count_per_day bulk posts k time_of_day today y hk, ?_, ?_⟩
  · rw [newPosts_days bulk posts k time_of_day today hk]
    exact distinct_days_card today k (pendingOf bulk).length hM hk
  · show (bulk.map fun t =>
        if t.status = .pending then { t with status := BulkStatus.scheduled } else t).map
          BulkTitle.title = bulk.map BulkTitle.title
    rw [List.map_map]
    have hcomp : (BulkTitle.title ∘ fun t =>
        if t.status = .pending then { t with status := BulkStatus.scheduled } else t)
        = BulkTitle.title := by
      funext t
      by_cases h : t.status = .pending <;> simp [h]
    rw [hcomp]
  · intro t ht
    obtain ⟨s, _, rfl⟩ := List.mem_map.mp ht
    by_cases h : s.status = .pending
    · simp [h]
    · cases hstat : s.status with
      | pending => exact absurd hstat h
      | scheduled => simp [h, hstat]

/-- Witness for C3: three pending titles with two posts per day span two
dates and create three posts. -/
theorem bulk_scheduling_assignment_witness :
    ((newPostsOf bulk0 [] 2 600 10).map ScheduledPost.publishDay).toFinset.card
        = ((pendingOf bulk0).length + 2 - 1) / 2 ∧
    (newPostsOf bulk0 [] 2 600 10).length = (pendingOf bulk0).length :=
  ⟨(bulk_scheduling_assignment bulk0 [] 2 600 10 (by decide) (by decide)).2.2.2.2.1,
   (bulk_scheduling_assignment bulk0 [] 2 600 10 (by decide) (by decide)).2.1⟩
